import Mathlib

/-!
Verification development for the namespace-isolation and privilege-mapping
choreography of the mizer repository (`src/rust/src/container.rs`).

The Rust code is shallowly embedded as pure Lean functions over an oracle
record `OsEnv` that fixes the outcome of every fallible OS interaction
(IPC server creation, clone, the six `/proc` file operations, accept/send,
the child-side channel steps, the work closure, and `waitpid`).  Each
embedded function also produces the ordered list of externally visible
events it performs (file opens/writes, handshake steps, prints, the
waitpid call), so that ordering and exactly-once properties can be stated.

Error values of the Rust `failure` crate are modelled as a list of context
strings, outermost context first: `x.context(c)` prepends `c`.
-/

namespace Mizer

/-- Model of `failure::Error`: the chain of context messages, outermost
first.  A base error enters the chain as a one-element list. -/
abbrev Err := List String

/-- Model of `Result<T, failure::Error>`. -/
abbrev MzrResult (T : Type) := Except Err T

/-- Boolean success test for a result. -/
def isOkB {T : Type} : MzrResult T → Bool
  | .ok _ => true
  | .error _ => false

/-- Model of `nix::errno::Errno` at the granularity distinguished by the
`waitpid` match in `with_unshared_user_and_mount` (lines 63-69): the three
specifically matched errnos, and everything else. -/
inductive ErrnoM where
  | echild
  | eintr
  | einval
  | otherNo (n : Nat)
  deriving DecidableEq, Repr

/-- Model of `nix::Error`: either a system errno or one of the non-`Sys`
variants, which the catch-all arm `Err(e)` treats uniformly. -/
inductive NixError where
  | sys (e : ErrnoM)
  | nonSys (s : String)
  deriving DecidableEq, Repr

/-- Rendering of a `nix::Error` as the base message of an error chain. -/
def nixErrorMsg : NixError → String
  | .sys .echild => "ECHILD"
  | .sys .eintr => "EINTR"
  | .sys .einval => "EINVAL"
  | .sys (.otherNo n) => "errno " ++ toString n
  | .nonSys s => s

/-- Model of `nix::sys::wait::WaitStatus` (all constructors that `waitpid`
can return). -/
inductive WaitStatus where
  | exited (pid : Nat) (status : Int)
  | signaled (pid : Nat) (signal : Nat) (coreDumped : Bool)
  | stopped (pid : Nat) (signal : Nat)
  | ptraceEvent (pid : Nat) (signal : Nat) (event : Int)
  | ptraceSyscall (pid : Nat)
  | continued (pid : Nat)
  | stillAlive
  deriving DecidableEq, Repr

/-- Parent-side events, in the order `with_unshared_user_and_mount`
performs them.  File events belong to `map_user_to_root`; an event is
recorded when the corresponding operation is attempted. -/
inductive PEv where
  | serverCreateEv
  | cloneEv
  | fileOpen (path : String)
  | fileWrite (path : String) (content : String)
  | acceptEv
  | sendReadyEv
  | sleepEv
  | waitpidEv (pid : Nat)
  | printEv (s : String)
  deriving DecidableEq, Repr

/-- Child-side events, in the order the child closure performs them. -/
inductive CEv where
  | chanCreate
  | connectEv
  | sendTxEv
  | recvEv
  | workEv
  | printEv (s : String)
  deriving DecidableEq, Repr

instance {ε α : Type} [DecidableEq ε] [DecidableEq α] : DecidableEq (Except ε α) := by
  intro a b
  cases a with
  | ok v =>
      cases b with
      | ok w => exact decidable_of_iff (v = w) (by simp)
      | error f => exact isFalse (by simp)
  | error e =>
      cases b with
      | ok w => exact isFalse (by simp)
      | error f => exact decidable_of_iff (e = f) (by simp)

/-- Oracle fixing the outcome of every fallible OS interaction of one run.
A field of type `Option String` is `none` when the step succeeds and
`some msg` when it fails with base error message `msg`. -/
structure OsEnv where
  /-- current real uid (`unistd::Uid::current()`). -/
  uid : Nat
  /-- current real gid (`unistd::Gid::current()`). -/
  gid : Nat
  /-- pid returned by a successful clone. -/
  childPid : Nat
  /-- `IpcOneShotServer::new()` in `init_ipc`. -/
  serverCreate : Option String
  /-- the `nix::sched::clone` call. -/
  cloneRes : Option String
  /-- opening `/proc/<pid>/uid_map` for writing. -/
  openUidMap : Option String
  /-- writing the uid_map line. -/
  writeUidMap : Option String
  /-- opening `/proc/<pid>/setgroups` for writing. -/
  openSetgroups : Option String
  /-- writing "deny" to setgroups. -/
  writeSetgroups : Option String
  /-- opening `/proc/<pid>/gid_map` for writing. -/
  openGidMap : Option String
  /-- writing the gid_map line. -/
  writeGidMap : Option String
  /-- `parent_server.accept()` in `send_ready`. -/
  acceptRes : Option String
  /-- `tx1.send(Ready)` in `send_ready`. -/
  sendReadyRes : Option String
  /-- `ipc::channel()` in `recv_ready`. -/
  chanRes : Option String
  /-- `IpcSender::connect(parent_name)` in `recv_ready`. -/
  connectRes : Option String
  /-- `tx0.send(tx1)` in `recv_ready`. -/
  sendTxRes : Option String
  /-- `rx1.recv()` in `recv_ready`. -/
  recvRes : Option String
  /-- result of the caller-supplied work closure `child_fn`. -/
  workRes : Option String
  /-- result of the `waitpid` call in the parent. -/
  waitRes : Except NixError WaitStatus
  deriving DecidableEq, Repr

/-- Context string attached by `wrap_ipc` (line 131). -/
def ipcContext : String :=
  "Error encountered in interprocess communication mechanism."

/-- Context string attached by `wrap_user_mapping` (lines 157-161). -/
def userMappingContext : String :=
  "Error encountered while mapping user to root within the child process user namespace."

/-- Context string attached to a clone failure (line 53). -/
def cloneContext : String :=
  "Error while cloning mzr child with unshared user and mount namespaces."

/-- Model of `wrap_ipc` (lines 130-132): attach the IPC context to a
failing result. -/
def wrap_ipc {T : Type} : MzrResult T → MzrResult T
  | .error e => .error (ipcContext :: e)
  | .ok v => .ok v

/-- Model of `wrap_user_mapping` (lines 156-161): attach the
user-mapping context to a failing result. -/
def wrap_user_mapping {T : Type} : MzrResult T → MzrResult T
  | .error e => .error (userMappingContext :: e)
  | .ok v => .ok v

/-- Model of `Result::and` from Rust: both arguments are fully evaluated
values; the second is returned when the first is `Ok`. -/
def resultAnd (a b : MzrResult Unit) : MzrResult Unit :=
  match a with
  | .error e => .error e
  | .ok _ => b

/-- Path of the `/proc/<pid>/uid_map` pseudo-file (line 138). -/
def uidMapPath (env : OsEnv) : String :=
  "/proc/" ++ toString env.childPid ++ "/uid_map"

/-- Path of the `/proc/<pid>/setgroups` pseudo-file (line 144). -/
def setgroupsPath (env : OsEnv) : String :=
  "/proc/" ++ toString env.childPid ++ "/setgroups"

/-- Path of the `/proc/<pid>/gid_map` pseudo-file (line 149). -/
def gidMapPath (env : OsEnv) : String :=
  "/proc/" ++ toString env.childPid ++ "/gid_map"

/-- Line written to uid_map (line 140): maps namespace uid 0 to the real
uid, range length 1. -/
def uidMapLine (env : OsEnv) : String :=
  "0 " ++ toString env.uid ++ " 1\n"

/-- Line written to gid_map (line 151). -/
def gidMapLine (env : OsEnv) : String :=
  "0 " ++ toString env.gid ++ " 1\n"

/-- Model of `map_user_to_root` (lines 135-154): opens and writes
`uid_map`, then `setgroups`, then `gid_map`, short-circuiting at the
first failing open or write via `?`; `wrap_user_mapping` adds its
context to any failure.  Returns the attempted file events in order,
together with the result. -/
def map_user_to_root (env : OsEnv) : List PEv × MzrResult Unit :=
  match env.openUidMap with
  | some e => ([PEv.fileOpen (uidMapPath env)], wrap_user_mapping (.error [e]))
  | none =>
  match env.writeUidMap with
  | some e =>
      ([PEv.fileOpen (uidMapPath env), PEv.fileWrite (uidMapPath env) (uidMapLine env)],
       wrap_user_mapping (.error [e]))
  | none =>
  match env.openSetgroups with
  | some e =>
      ([PEv.fileOpen (uidMapPath env), PEv.fileWrite (uidMapPath env) (uidMapLine env),
        PEv.fileOpen (setgroupsPath env)],
       wrap_user_mapping (.error [e]))
  | none =>
  match env.writeSetgroups with
  | some e =>
      ([PEv.fileOpen (uidMapPath env), PEv.fileWrite (uidMapPath env) (uidMapLine env),
        PEv.fileOpen (setgroupsPath env), PEv.fileWrite (setgroupsPath env) "deny"],
       wrap_user_mapping (.error [e]))
  | none =>
  match env.openGidMap with
  | some e =>
      ([PEv.fileOpen (uidMapPath env), PEv.fileWrite (uidMapPath env) (uidMapLine env),
        PEv.fileOpen (setgroupsPath env), PEv.fileWrite (setgroupsPath env) "deny",
        PEv.fileOpen (gidMapPath env)],
       wrap_user_mapping (.error [e]))
  | none =>
  match env.writeGidMap with
  | some e =>
      ([PEv.fileOpen (uidMapPath env), PEv.fileWrite (uidMapPath env) (uidMapLine env),
        PEv.fileOpen (setgroupsPath env), PEv.fileWrite (setgroupsPath env) "deny",
        PEv.fileOpen (gidMapPath env), PEv.fileWrite (gidMapPath env) (gidMapLine env)],
       wrap_user_mapping (.error [e]))
  | none =>
      ([PEv.fileOpen (uidMapPath env), PEv.fileWrite (uidMapPath env) (uidMapLine env),
        PEv.fileOpen (setgroupsPath env), PEv.fileWrite (setgroupsPath env) "deny",
        PEv.fileOpen (gidMapPath env), PEv.fileWrite (gidMapPath env) (gidMapLine env)],
       .ok ())

/-- Model of the inner closure of `recv_ready` (lines 119-128): create a
private channel, dial the parent server, send the sender half, then
block receiving the `Ready` message; `wrap_ipc` adds its context to any
failure.  Returns the attempted child events in order with the result. -/
def recv_ready_events (env : OsEnv) : List CEv × MzrResult Unit :=
  match env.chanRes with
  | some e => ([CEv.chanCreate], wrap_ipc (.error [e]))
  | none =>
  match env.connectRes with
  | some e => ([CEv.chanCreate, CEv.connectEv], wrap_ipc (.error [e]))
  | none =>
  match env.sendTxRes with
  | some e => ([CEv.chanCreate, CEv.connectEv, CEv.sendTxEv], wrap_ipc (.error [e]))
  | none =>
  match env.recvRes with
  | some e =>
      ([CEv.chanCreate, CEv.connectEv, CEv.sendTxEv, CEv.recvEv], wrap_ipc (.error [e]))
  | none =>
      ([CEv.chanCreate, CEv.connectEv, CEv.sendTxEv, CEv.recvEv], .ok ())

/-- Result of `recv_ready` (lines 119-128), without the event log. -/
def recv_ready (env : OsEnv) : MzrResult Unit :=
  (recv_ready_events env).2

/-- Execution of the caller-supplied work closure `child_fn`: one `workEv`
event and the result of the closure. -/
def child_fn_events (env : OsEnv) : List CEv × MzrResult Unit :=
  ([CEv.workEv],
   match env.workRes with
   | some e => .error [e]
   | none => .ok ())

/-- Rendering of an error chain, as the child print calls displays it. -/
def renderErr (e : Err) : String :=
  String.intercalate ": " e

/-- Model of the child closure passed to clone (lines 34-49):
`match recv_ready(&parent_name).and(child_fn()) { Ok => 0, Err => print and 1 }`.
Rust evaluates the receiver `recv_ready(&parent_name)` first and then the
argument `child_fn()` before calling `Result::and`, so the work closure is
executed regardless of the outcome of `recv_ready`.  Returns the child
exit code and its event log. -/
def childEntry (env : OsEnv) : Int × List CEv :=
  let recvPart := recv_ready_events env
  let workPart := child_fn_events env
  match resultAnd recvPart.2 workPart.2 with
  | .ok _ => (0, recvPart.1 ++ workPart.1)
  | .error err =>
      (1, recvPart.1 ++ workPart.1 ++
          [CEv.printEv "", CEv.printEv ("mzr child error: " ++ renderErr err)])

/-- Model of `init_ipc` (lines 103-105): create the one-shot server,
wrapping any failure with the IPC context. -/
def init_ipc (env : OsEnv) : MzrResult Unit :=
  wrap_ipc (match env.serverCreate with
            | some e => .error [e]
            | none => .ok ())

/-- Model of `send_ready` (lines 111-117): accept the single incoming
connection, then send one `Ready` over the handed-back sender; `wrap_ipc`
adds its context to any failure.  Returns attempted events and result. -/
def send_ready (env : OsEnv) : List PEv × MzrResult Unit :=
  match env.acceptRes with
  | some e => ([PEv.acceptEv], wrap_ipc (.error [e]))
  | none =>
  match env.sendReadyRes with
  | some e => ([PEv.acceptEv, PEv.sendReadyEv], wrap_ipc (.error [e]))
  | none => ([PEv.acceptEv, PEv.sendReadyEv], .ok ())

/-- Printed line for a clean child exit (line 72). -/
def exitSuccessLine : String := "mzr child exited with success."

/-- Printed line for a nonzero child exit (lines 74-78); `color_err`
colouring is abstracted away. -/
def exitErrorLine (status : Int) : String :=
  "mzr child exited with error code " ++ toString status

/-- Printed line for a signal death (lines 81-87). -/
def signaledLine (signal : Nat) : String :=
  "mzr child was killed by signal " ++ toString signal

/-- Message of the `bail!` for impossible wait statuses (lines 88-95). -/
def impossibleWaitMsg : String :=
  "Response from waiting for child should be impossible."

/-- Context for an ECHILD wait failure (line 64). -/
def waitEchildContext : String := "Failed to find mzr child after fork."

/-- Context for an EINTR wait failure (lines 65-67). -/
def waitEintrContext : String := "Waiting for mzr child interrupted by signal."

/-- Context for an EINVAL wait failure (line 68). -/
def waitEinvalContext : String := "Impossible: waitpid was called wrong."

/-- Context for any other wait failure (line 69). -/
def waitOtherContext : String := "Unexpected error in waitpid."

/-- Classification of the `waitpid` result, mirroring the match at lines
63-96: the three named errnos and the catch-all each fail with their own
context; `Exited` and `Signaled` print a line and fall through to
`Ok(())`; every other status hits the `bail!`.  Returns the result and
the printed lines. -/
def classifyWait (r : Except NixError WaitStatus) : MzrResult Unit × List PEv :=
  match r with
  | .error (.sys .echild) =>
      (.error [waitEchildContext, nixErrorMsg (.sys .echild)], [])
  | .error (.sys .eintr) =>
      (.error [waitEintrContext, nixErrorMsg (.sys .eintr)], [])
  | .error (.sys .einval) =>
      (.error [waitEinvalContext, nixErrorMsg (.sys .einval)], [])
  | .error e =>
      (.error [waitOtherContext, nixErrorMsg e], [])
  | .ok (.exited _ status) =>
      if status = 0 then (.ok (), [PEv.printEv exitSuccessLine])
      else (.ok (), [PEv.printEv (exitErrorLine status)])
  | .ok (.signaled _ signal _) =>
      (.ok (), [PEv.printEv (signaledLine signal)])
  | .ok _ =>
      (.error [impossibleWaitMsg], [])

/-- Model of `with_unshared_user_and_mount` (lines 19-99), parent side:
create the IPC server, clone, map the user to root, run the parent half
of the handshake, sleep, wait for the child and classify the result.
Every `?` is an early return carrying the events performed so far. -/
def with_unshared_user_and_mount (env : OsEnv) : MzrResult Unit × List PEv :=
  match init_ipc env with
  | .error e => (.error e, [PEv.serverCreateEv])
  | .ok _ =>
  match env.cloneRes with
  | some e => (.error [cloneContext, e], [PEv.serverCreateEv, PEv.cloneEv])
  | none =>
  let mapPart := map_user_to_root env
  let evs := [PEv.serverCreateEv, PEv.cloneEv] ++ mapPart.1
  match mapPart.2 with
  | .error e => (.error e, evs)
  | .ok _ =>
  let sendPart := send_ready env
  let evs := evs ++ sendPart.1
  match sendPart.2 with
  | .error e => (.error e, evs)
  | .ok _ =>
  let evs := evs ++ [PEv.sleepEv, PEv.waitpidEv env.childPid]
  let waited := classifyWait env.waitRes
  (waited.1, evs ++ waited.2)

/-- Child events of a run: the child closure runs exactly when the clone
call was reached and succeeded. -/
def systemChildEvents (env : OsEnv) : List CEv :=
  match env.serverCreate, env.cloneRes with
  | none, none => (childEntry env).2
  | _, _ => []

/-- Environment of a whole-system run: when the child exits normally,
the parent waitpid observes Exited with the computed child exit
code. -/
def systemEnv (env : OsEnv) : OsEnv :=
  { env with waitRes := .ok (.exited env.childPid (childEntry env).1) }

/-- Whole-system run coupling child exit code to the parent wait. -/
def systemRun (env : OsEnv) : MzrResult Unit × List PEv :=
  with_unshared_user_and_mount (systemEnv env)

/-- Baseline oracle: every OS interaction succeeds, the work closure
succeeds, and `waitpid` reports a clean exit. -/
def okEnv : OsEnv :=
  { uid := 1000
    gid := 1000
    childPid := 4242
    serverCreate := none
    cloneRes := none
    openUidMap := none
    writeUidMap := none
    openSetgroups := none
    writeSetgroups := none
    openGidMap := none
    writeGidMap := none
    acceptRes := none
    sendReadyRes := none
    chanRes := none
    connectRes := none
    sendTxRes := none
    recvRes := none
    workRes := none
    waitRes := .ok (.exited 4242 0) }

/-- All six file operations of the privilege mapper succeed. -/
def mapStepsOk (env : OsEnv) : Prop :=
  env.openUidMap = none ∧ env.writeUidMap = none ∧ env.openSetgroups = none ∧
  env.writeSetgroups = none ∧ env.openGidMap = none ∧ env.writeGidMap = none

/-- Every parent-side step before the wait succeeds. -/
def preWaitOk (env : OsEnv) : Prop :=
  env.serverCreate = none ∧ env.cloneRes = none ∧ mapStepsOk env ∧
  env.acceptRes = none ∧ env.sendReadyRes = none

/-- Number of waitpid calls recorded in a parent event list. -/
def countWaitpid (evs : List PEv) : Nat :=
  evs.countP (fun ev => match ev with | PEv.waitpidEv _ => true | _ => false)

theorem countWaitpid_append (l r : List PEv) :
    countWaitpid (l ++ r) = countWaitpid l + countWaitpid r := by
  simp [countWaitpid, List.countP_append]

theorem countWaitpid_map_user_to_root (env : OsEnv) :
    countWaitpid (map_user_to_root env).1 = 0 := by
  unfold map_user_to_root
  cases env.openUidMap <;> cases env.writeUidMap <;> cases env.openSetgroups <;>
    cases env.writeSetgroups <;> cases env.openGidMap <;> cases env.writeGidMap <;>
    simp [countWaitpid]

theorem countWaitpid_send_ready (env : OsEnv) :
    countWaitpid (send_ready env).1 = 0 := by
  unfold send_ready
  cases env.acceptRes <;> cases env.sendReadyRes <;> simp [countWaitpid]

/-- Claim C4: for every child pid, `map_user_to_root` writes exactly three
`/proc/<pid>` pseudo-files, each opened for writing and written exactly
once, in the fixed order uid_map then setgroups then gid_map, with the
line `0 <current-uid> 1` for uid_map, the literal token `deny` for
setgroups, and the line `0 <current-gid> 1` for gid_map. -/
theorem map_user_to_root_writes (env : OsEnv) (h : mapStepsOk env) :
    map_user_to_root env =
      ([PEv.fileOpen (uidMapPath env),
        PEv.fileWrite (uidMapPath env) ("0 " ++ toString env.uid ++ " 1\n"),
        PEv.fileOpen (setgroupsPath env),
        PEv.fileWrite (setgroupsPath env) "deny",
        PEv.fileOpen (gidMapPath env),
        PEv.fileWrite (gidMapPath env) ("0 " ++ toString env.gid ++ " 1\n")],
       .ok ()) := by
  obtain ⟨h1, h2, h3, h4, h5, h6⟩ := h
  simp [map_user_to_root, h1, h2, h3, h4, h5, h6, uidMapLine, gidMapLine]

theorem map_user_to_root_writes_witness :
    mapStepsOk okEnv ∧
    map_user_to_root okEnv =
      ([PEv.fileOpen "/proc/4242/uid_map",
        PEv.fileWrite "/proc/4242/uid_map" "0 1000 1\n",
        PEv.fileOpen "/proc/4242/setgroups",
        PEv.fileWrite "/proc/4242/setgroups" "deny",
        PEv.fileOpen "/proc/4242/gid_map",
        PEv.fileWrite "/proc/4242/gid_map" "0 1000 1\n"],
       .ok ()) :=
  ⟨⟨rfl, rfl, rfl, rfl, rfl, rfl⟩,
   (map_user_to_root_writes okEnv ⟨rfl, rfl, rfl, rfl, rfl, rfl⟩).trans (by decide)⟩

/-- Helper: full case analysis of the child entry point result. -/
theorem childEntry_behavior (env : OsEnv) :
    (isOkB (resultAnd (recv_ready env) (child_fn_events env).2) = true →
       (childEntry env).1 = 0) ∧
    (isOkB (resultAnd (recv_ready env) (child_fn_events env).2) = false →
       (childEntry env).1 = 1 ∧
       ∃ e, (childEntry env).2 =
              (recv_ready_events env).1 ++ [CEv.workEv] ++
              [CEv.printEv "", CEv.printEv ("mzr child error: " ++ renderErr e)]) ∧
    ((childEntry env).1 = 0 ∨ (childEntry env).1 = 1) := by
  unfold childEntry
  have hfe : (child_fn_events env).1 = [CEv.workEv] := rfl
  cases h : resultAnd (recv_ready env) (child_fn_events env).2 with
  | ok v =>
      simp only [recv_ready] at h
      simp [h, isOkB]
  | error e =>
      simp only [recv_ready] at h
      simp [h, isOkB, hfe]
      exact ⟨e, rfl⟩

/-- Claim C5: the child entry point maps an `Ok` of the rendezvous
followed by the work closure to exit code 0, maps an `Err` to exit code 1
after printing an error line, and produces no other exit code. -/
theorem childEntry_exit_codes (env : OsEnv) :
    (isOkB (resultAnd (recv_ready env) (child_fn_events env).2) = true →
       (childEntry env).1 = 0) ∧
    (isOkB (resultAnd (recv_ready env) (child_fn_events env).2) = false →
       (childEntry env).1 = 1 ∧
       ∃ e, (childEntry env).2 =
              (recv_ready_events env).1 ++ [CEv.workEv] ++
              [CEv.printEv "", CEv.printEv ("mzr child error: " ++ renderErr e)]) ∧
    ((childEntry env).1 = 0 ∨ (childEntry env).1 = 1) :=
  childEntry_behavior env

theorem childEntry_exit_codes_witness :
    ((childEntry okEnv).1 = 0 ∨ (childEntry okEnv).1 = 1) ∧ (childEntry okEnv).1 = 0 :=
  ⟨(childEntry_exit_codes okEnv).2.2,
   (childEntry_exit_codes okEnv).1 (by decide)⟩

/-- Claim C10: a child-side handshake failure makes the child print an
error line and exit with code 1, the same exit code produced when the
work closure itself fails, so the two are indistinguishable at the
exit-code layer. -/
theorem handshake_and_work_failures_share_exit_code (env env2 : OsEnv)
    (h : isOkB (recv_ready env) = false)
    (h1 : isOkB (recv_ready env2) = true) (h2 : env2.workRes.isSome = true) :
    (childEntry env).1 = 1 ∧
    (∃ s, CEv.printEv s ∈ (childEntry env).2) ∧
    (childEntry env2).1 = 1 ∧
    (childEntry env).1 = (childEntry env2).1 := by
  have hw : isOkB (resultAnd (recv_ready env) (child_fn_events env).2) = false := by
    cases hr : recv_ready env with
    | ok v => rw [hr] at h; simp [isOkB] at h
    | error e => simp [resultAnd, isOkB]
  obtain ⟨hc1, he⟩ := ((childEntry_behavior env).2.1 hw)
  have hw2 : isOkB (resultAnd (recv_ready env2) (child_fn_events env2).2) = false := by
    cases hr : recv_ready env2 with
    | error e => rw [hr] at h1; simp [isOkB] at h1
    | ok v =>
        obtain ⟨msg, hmsg⟩ := Option.isSome_iff_exists.mp h2
        simp [resultAnd, child_fn_events, hmsg, isOkB]
  have hc2 := ((childEntry_behavior env2).2.1 hw2).1
  refine ⟨hc1, ?_, hc2, by rw [hc1, hc2]⟩
  obtain ⟨e, he2⟩ := he
  exact ⟨"", by rw [he2]; simp⟩

/-- Oracle of a run whose child-side dial of the parent server fails. -/
def envDialFail : OsEnv := { okEnv with connectRes := some "dial failed" }

/-- Oracle of a run whose work closure fails. -/
def envWorkFail : OsEnv := { okEnv with workRes := some "disk full" }

theorem handshake_and_work_failures_share_exit_code_witness :
    (childEntry envDialFail).1 = 1 ∧
    (∃ s, CEv.printEv s ∈ (childEntry envDialFail).2) ∧
    (childEntry envWorkFail).1 = 1 ∧
    (childEntry envDialFail).1 = (childEntry envWorkFail).1 :=
  handshake_and_work_failures_share_exit_code envDialFail envWorkFail
    (by decide) (by decide) (by decide)

/-- Helper: when every parent-side step before the wait succeeds, the run
reaches the wait step and the overall outcome is the classification of
the waitpid result, after the full event prefix. -/
theorem with_unshared_at_wait (env : OsEnv) (h : preWaitOk env) :
    with_unshared_user_and_mount env =
      ((classifyWait env.waitRes).1,
       [PEv.serverCreateEv, PEv.cloneEv,
        PEv.fileOpen (uidMapPath env), PEv.fileWrite (uidMapPath env) (uidMapLine env),
        PEv.fileOpen (setgroupsPath env), PEv.fileWrite (setgroupsPath env) "deny",
        PEv.fileOpen (gidMapPath env), PEv.fileWrite (gidMapPath env) (gidMapLine env),
        PEv.acceptEv, PEv.sendReadyEv, PEv.sleepEv, PEv.waitpidEv env.childPid]
       ++ (classifyWait env.waitRes).2) := by
  obtain ⟨hs, hc, ⟨h1, h2, h3, h4, h5, h6⟩, ha, hsr⟩ := h
  simp [with_unshared_user_and_mount, init_ipc, wrap_ipc, hs, hc,
        map_user_to_root, h1, h2, h3, h4, h5, h6, send_ready, ha, hsr]

/-- Claim C6: the wait errors ECHILD, EINTR, EINVAL and any other wait
error each fail the operation with a distinct descriptive context; a
normal exit and a signal death are the only wait results treated as
legitimate; any other wait status fails as a fatal internal error. -/
theorem wait_error_classification (env : OsEnv) (h : preWaitOk env) :
    (env.waitRes = .error (.sys .echild) →
        (with_unshared_user_and_mount env).1 = .error [waitEchildContext, "ECHILD"]) ∧
    (env.waitRes = .error (.sys .eintr) →
        (with_unshared_user_and_mount env).1 = .error [waitEintrContext, "EINTR"]) ∧
    (env.waitRes = .error (.sys .einval) →
        (with_unshared_user_and_mount env).1 = .error [waitEinvalContext, "EINVAL"]) ∧
    (∀ n, env.waitRes = .error (.sys (.otherNo n)) →
        (with_unshared_user_and_mount env).1 =
          .error [waitOtherContext, "errno " ++ toString n]) ∧
    (∀ s, env.waitRes = .error (.nonSys s) →
        (with_unshared_user_and_mount env).1 = .error [waitOtherContext, s]) ∧
    (∀ p st, env.waitRes = .ok (.exited p st) →
        isOkB (with_unshared_user_and_mount env).1 = true) ∧
    (∀ p sg c, env.waitRes = .ok (.signaled p sg c) →
        isOkB (with_unshared_user_and_mount env).1 = true) ∧
    (∀ st, env.waitRes = .ok st →
        (∀ p s0, st ≠ WaitStatus.exited p s0) →
        (∀ p sg c, st ≠ WaitStatus.signaled p sg c) →
        (with_unshared_user_and_mount env).1 = .error [impossibleWaitMsg]) ∧
    [waitEchildContext, waitEintrContext, waitEinvalContext, waitOtherContext].Pairwise
      (fun a b => a ≠ b) := by
  have hw := with_unshared_at_wait env h
  have hr : (with_unshared_user_and_mount env).1 = (classifyWait env.waitRes).1 := by
    rw [hw]
  refine ⟨?_, ?_, ?_, ?_, ?_, ?_, ?_, ?_, by decide⟩
  · intro he; rw [hr, he]; rfl
  · intro he; rw [hr, he]; rfl
  · intro he; rw [hr, he]; rfl
  · intro n he; rw [hr, he]; rfl
  · intro s he; rw [hr, he]; rfl
  · intro p st he; rw [hr, he]
    by_cases h0 : st = 0 <;> simp [classifyWait, h0, isOkB]
  · intro p sg c he; rw [hr, he]; rfl
  · intro st he hne hns
    rw [hr, he]
    cases st with
    | exited p s0 => exact absurd rfl (hne p s0)
    | signaled p sg c => exact absurd rfl (hns p sg c)
    | stopped p sg => rfl
    | ptraceEvent p sg evn => rfl
    | ptraceSyscall p => rfl
    | continued p => rfl
    | stillAlive => rfl

/-- Oracle of a run whose waitpid fails with ECHILD. -/
def envWaitEchild : OsEnv := { okEnv with waitRes := .error (.sys .echild) }

theorem wait_error_classification_witness :
    (with_unshared_user_and_mount envWaitEchild).1 =
      .error [waitEchildContext, "ECHILD"] :=
  (wait_error_classification envWaitEchild
    ⟨rfl, rfl, ⟨rfl, rfl, rfl, rfl, rfl, rfl⟩, rfl, rfl⟩).1 rfl

/-- Oracle of a whole-system run whose work closure fails. -/
def envC1 : OsEnv := { okEnv with workRes := some "disk full" }

/-- Claim C1 counterexample: the work closure fails, the child exits with
code 1, yet the result `with_unshared_user_and_mount` reports to the
caller is success; only a printed line carries the exit code. -/
theorem nonzero_exit_reported_as_success :
    (childEntry envC1).1 = 1 ∧
    (systemRun envC1).1 = .ok () ∧
    PEv.printEv (exitErrorLine 1) ∈ (systemRun envC1).2 := by decide

/-- Claim C1 (amended): exit code 0 is reported as success; a nonzero
exit code or a signal death only prints a diagnostic line naming the
specific code or signal, and the function still returns success to the
caller. -/
theorem child_exit_reporting (env : OsEnv) (h : preWaitOk env) :
    (∀ p, env.waitRes = .ok (.exited p 0) →
        (with_unshared_user_and_mount env).1 = .ok () ∧
        PEv.printEv exitSuccessLine ∈ (with_unshared_user_and_mount env).2) ∧
    (∀ p st, env.waitRes = .ok (.exited p st) → st ≠ 0 →
        (with_unshared_user_and_mount env).1 = .ok () ∧
        PEv.printEv (exitErrorLine st) ∈ (with_unshared_user_and_mount env).2) ∧
    (∀ p sg c, env.waitRes = .ok (.signaled p sg c) →
        (with_unshared_user_and_mount env).1 = .ok () ∧
        PEv.printEv (signaledLine sg) ∈ (with_unshared_user_and_mount env).2) := by
  have hw := with_unshared_at_wait env h
  refine ⟨?_, ?_, ?_⟩
  · intro p he
    rw [hw, he]
    constructor
    · rfl
    · simp [classifyWait]
  · intro p st he hne
    rw [hw, he]
    constructor
    · simp [classifyWait]
      split <;> simp [isOkB]
    · simp [classifyWait, hne]
  · intro p sg c he
    rw [hw, he]
    constructor
    · rfl
    · simp [classifyWait]

/-- Oracle of a run whose child exits with code 5. -/
def envExit5 : OsEnv := { okEnv with waitRes := .ok (.exited 4242 5) }

theorem child_exit_reporting_witness :
    (with_unshared_user_and_mount envExit5).1 = .ok () ∧
    PEv.printEv (exitErrorLine 5) ∈ (with_unshared_user_and_mount envExit5).2 :=
  (child_exit_reporting envExit5
    ⟨rfl, rfl, ⟨rfl, rfl, rfl, rfl, rfl, rfl⟩, rfl, rfl⟩).2.1 4242 5 rfl (by decide)

/-- Oracle of a run whose one-shot server creation fails. -/
def envServerFail : OsEnv := { okEnv with serverCreate := some "server creation failed" }

/-- Oracle of a run whose accept of the child connection fails. -/
def envAcceptFail : OsEnv := { okEnv with acceptRes := some "accept failed" }

/-- Oracle of a whole-system run whose child-side receive of the
ReadyMessage fails while every parent-side step succeeds. -/
def envRecvFail : OsEnv := { okEnv with recvRes := some "recv failed" }

/-- Claim C7 counterexample: the child-side receive of the ReadyMessage
fails, a step of the rendezvous handshake, yet the whole operation
returns success to the caller: the child merely exits with code 1 and
the supervisor reports that exit as a normal outcome. -/
theorem child_handshake_failure_not_fatal :
    isOkB (recv_ready envRecvFail) = false ∧
    (childEntry envRecvFail).1 = 1 ∧
    (systemRun envRecvFail).1 = .ok () := by decide

/-- Claim C7 (amended): a parent-side handshake step failing (one-shot
server creation, accept of the child connection, or the send of the
ReadyMessage) is wrapped with the interprocess-communication context and
fails the whole operation; a child-side step failing (channel creation,
dial, send of the sender half, or the receive of the ReadyMessage) is
wrapped with the same context and makes the child exit with code 1, which
the parent reports as a normal outcome rather than a failure. -/
theorem ipc_failure_contexts (env : OsEnv) :
    (∀ e, env.serverCreate = some e →
        (with_unshared_user_and_mount env).1 = .error [ipcContext, e]) ∧
    (∀ e, env.serverCreate = none → env.cloneRes = none → mapStepsOk env →
        env.acceptRes = some e →
        (with_unshared_user_and_mount env).1 = .error [ipcContext, e]) ∧
    (∀ e, env.serverCreate = none → env.cloneRes = none → mapStepsOk env →
        env.acceptRes = none → env.sendReadyRes = some e →
        (with_unshared_user_and_mount env).1 = .error [ipcContext, e]) ∧
    (∀ e, env.chanRes = some e → recv_ready env = .error [ipcContext, e]) ∧
    (∀ e, env.chanRes = none → env.connectRes = some e →
        recv_ready env = .error [ipcContext, e]) ∧
    (∀ e, env.chanRes = none → env.connectRes = none → env.sendTxRes = some e →
        recv_ready env = .error [ipcContext, e]) ∧
    (∀ e, env.chanRes = none → env.connectRes = none → env.sendTxRes = none →
        env.recvRes = some e → recv_ready env = .error [ipcContext, e]) ∧
    (isOkB (recv_ready env) = false → (childEntry env).1 = 1) := by
  refine ⟨?_, ?_, ?_, ?_, ?_, ?_, ?_, ?_⟩
  · intro e he
    simp [with_unshared_user_and_mount, init_ipc, wrap_ipc, he]
  · intro e hs hc hm ha
    obtain ⟨h1, h2, h3, h4, h5, h6⟩ := hm
    simp [with_unshared_user_and_mount, init_ipc, wrap_ipc, hs, hc,
          map_user_to_root, h1, h2, h3, h4, h5, h6, send_ready, ha]
  · intro e hs hc hm ha hsr
    obtain ⟨h1, h2, h3, h4, h5, h6⟩ := hm
    simp [with_unshared_user_and_mount, init_ipc, wrap_ipc, hs, hc,
          map_user_to_root, h1, h2, h3, h4, h5, h6, send_ready, ha, hsr]
  · intro e hch
    simp [recv_ready, recv_ready_events, wrap_ipc, hch]
  · intro e hch hco
    simp [recv_ready, recv_ready_events, wrap_ipc, hch, hco]
  · intro e hch hco hst
    simp [recv_ready, recv_ready_events, wrap_ipc, hch, hco, hst]
  · intro e hch hco hst hrv
    simp [recv_ready, recv_ready_events, wrap_ipc, hch, hco, hst, hrv]
  · intro hko
    have hw : isOkB (resultAnd (recv_ready env) (child_fn_events env).2) = false := by
      cases hr : recv_ready env with
      | ok v => rw [hr] at hko; simp [isOkB] at hko
      | error e => simp [resultAnd, isOkB]
    exact ((childEntry_behavior env).2.1 hw).1

theorem ipc_failure_contexts_witness :
    (with_unshared_user_and_mount envServerFail).1 =
      .error [ipcContext, "server creation failed"] ∧
    (with_unshared_user_and_mount envAcceptFail).1 =
      .error [ipcContext, "accept failed"] ∧
    recv_ready envRecvFail = .error [ipcContext, "recv failed"] :=
  ⟨(ipc_failure_contexts envServerFail).1 "server creation failed" rfl,
   (ipc_failure_contexts envAcceptFail).2.1 "accept failed" rfl rfl
     ⟨rfl, rfl, rfl, rfl, rfl, rfl⟩ rfl,
   (ipc_failure_contexts envRecvFail).2.2.2.2.2.2.1 "recv failed" rfl rfl rfl rfl⟩

/-- Oracle of a run whose kernel clone call fails. -/
def envCloneFail : OsEnv := { okEnv with cloneRes := some "clone failed" }

/-- Claim C8 counterexample: in a run where the clone call fails, the
rendezvous one-shot server creation, a handshake step, has already been
attempted by the parent, since `init_ipc` precedes the clone call. -/
theorem clone_failure_server_already_created :
    envCloneFail.cloneRes = some "clone failed" ∧
    PEv.serverCreateEv ∈ (with_unshared_user_and_mount envCloneFail).2 := by decide

/-- Claim C8 (amended): when the kernel clone call fails, the function
returns a failure describing the clone phase, no child-side code runs,
and none of the privilege-mapping writes or post-clone handshake steps
(accept, ReadyMessage send) are attempted; the rendezvous one-shot server
has, however, already been created before the clone call. -/
theorem clone_failure_aborts (env : OsEnv) (e : String)
    (hs : env.serverCreate = none) (hc : env.cloneRes = some e) :
    (with_unshared_user_and_mount env).1 = .error [cloneContext, e] ∧
    (with_unshared_user_and_mount env).2 = [PEv.serverCreateEv, PEv.cloneEv] ∧
    systemChildEvents env = [] := by
  refine ⟨?_, ?_, ?_⟩
  · simp [with_unshared_user_and_mount, init_ipc, wrap_ipc, hs, hc]
  · simp [with_unshared_user_and_mount, init_ipc, wrap_ipc, hs, hc]
  · simp [systemChildEvents, hs, hc]

theorem clone_failure_aborts_witness :
    (with_unshared_user_and_mount envCloneFail).1 = .error [cloneContext, "clone failed"] ∧
    (with_unshared_user_and_mount envCloneFail).2 = [PEv.serverCreateEv, PEv.cloneEv] ∧
    systemChildEvents envCloneFail = [] :=
  clone_failure_aborts envCloneFail "clone failed" rfl rfl

theorem countWaitpid_classifyWait (r : Except NixError WaitStatus) :
    countWaitpid (classifyWait r).2 = 0 := by
  unfold classifyWait
  cases r with
  | error e =>
      cases e with
      | sys en => cases en <;> simp [countWaitpid]
      | nonSys s => simp [countWaitpid]
  | ok st =>
      cases st <;> simp [countWaitpid]
      split <;> simp [countWaitpid]

/-- Oracle of a run where clone succeeds but the uid_map open fails. -/
def envMapFail : OsEnv := { okEnv with openUidMap := some "permission denied" }

/-- Claim C9 counterexample: clone succeeds, the uid_map open fails, and
the supervisor never calls waitpid: the created child is never reaped,
contradicting exactly-once reaping on mapping-failure paths. -/
theorem mapping_failure_child_never_reaped :
    envMapFail.cloneRes = none ∧
    isOkB (map_user_to_root envMapFail).2 = false ∧
    countWaitpid (with_unshared_user_and_mount envMapFail).2 = 0 := by decide

/-- Claim C9 (amended): the supervisor calls waitpid on the child exactly
once on every run in which privilege mapping and the parent-side
handshake succeed; when mapping or the parent-side handshake fails after
the child exists, the function returns early and waitpid is never
called, so the child is not reaped. -/
theorem reap_counts (env : OsEnv) :
    (preWaitOk env → countWaitpid (with_unshared_user_and_mount env).2 = 1) ∧
    (env.serverCreate = none → env.cloneRes = none →
        isOkB (map_user_to_root env).2 = false →
        countWaitpid (with_unshared_user_and_mount env).2 = 0) ∧
    (env.serverCreate = none → env.cloneRes = none →
        isOkB (map_user_to_root env).2 = true → isOkB (send_ready env).2 = false →
        countWaitpid (with_unshared_user_and_mount env).2 = 0) := by
  refine ⟨?_, ?_, ?_⟩
  · intro h
    rw [with_unshared_at_wait env h]
    show countWaitpid (_ ++ (classifyWait env.waitRes).2) = 1
    rw [countWaitpid_append, countWaitpid_classifyWait]
    rfl
  · intro hs hc hm
    cases hmr : (map_user_to_root env).2 with
    | ok v => rw [hmr] at hm; simp [isOkB] at hm
    | error e =>
        have : (with_unshared_user_and_mount env).2 =
            [PEv.serverCreateEv, PEv.cloneEv] ++ (map_user_to_root env).1 := by
          simp [with_unshared_user_and_mount, init_ipc, wrap_ipc, hs, hc, hmr]
        rw [this, countWaitpid_append, countWaitpid_map_user_to_root]
        rfl
  · intro hs hc hm hsr
    cases hmr : (map_user_to_root env).2 with
    | error e => rw [hmr] at hm; simp [isOkB] at hm
    | ok v =>
        cases hsr2 : (send_ready env).2 with
        | ok w => rw [hsr2] at hsr; simp [isOkB] at hsr
        | error e =>
            have : (with_unshared_user_and_mount env).2 =
                [PEv.serverCreateEv, PEv.cloneEv] ++ (map_user_to_root env).1 ++
                  (send_ready env).1 := by
              simp [with_unshared_user_and_mount, init_ipc, wrap_ipc, hs, hc, hmr, hsr2]
            rw [this, countWaitpid_append, countWaitpid_append,
                countWaitpid_map_user_to_root, countWaitpid_send_ready]
            rfl

theorem reap_counts_witness :
    countWaitpid (with_unshared_user_and_mount okEnv).2 = 1 :=
  (reap_counts okEnv).1 ⟨rfl, rfl, ⟨rfl, rfl, rfl, rfl, rfl, rfl⟩, rfl, rfl⟩

/-- Oracle of a run whose child-side private channel creation fails; the
child therefore never dials the parent, and the parent-side accept does
not complete. -/
def envC3 : OsEnv := { okEnv with chanRes := some "channel creation failed" }

/-- Claim C3 demonstration: `recv_ready` fails, yet the work closure is
still executed and the child exits with code 1.  The source computes
`recv_ready(&parent_name).and(child_fn())` and Rust evaluates the
argument `child_fn()` before `Result::and` is applied, so the child
proceeds past the wait point even when the rendezvous receive fails. -/
theorem work_runs_despite_failed_rendezvous :
    isOkB (recv_ready envC3) = false ∧
    CEv.workEv ∈ (childEntry envC3).2 ∧
    (childEntry envC3).1 = 1 := by decide

/-- Global event: a parent event or a child event. -/
inductive GEv where
  | p (e : PEv)
  | c (e : CEv)
  deriving DecidableEq, Repr

/-- A global trace is an interleaving of the two process-local traces. -/
inductive Interleave : List GEv → List GEv → List GEv → Prop where
  | nil : Interleave [] [] []
  | left {x l r t} : Interleave l r t → Interleave (x :: l) r (x :: t)
  | right {x l r t} : Interleave l r t → Interleave l (x :: r) (x :: t)

theorem interleave_append (l r : List GEv) : Interleave l r (l ++ r) := by
  induction l with
  | nil =>
      induction r with
      | nil => exact Interleave.nil
      | cons x xs ih => exact Interleave.right ih
  | cons x xs ih => exact Interleave.left ih

/-- Computable test that event a occurs strictly before event b in a
trace. -/
def precedesB (a b : GEv) : List GEv → Bool
  | [] => false
  | x :: xs => (decide (x = a) && decide (b ∈ xs)) || precedesB a b xs

/-- Parent-local trace of a run, as global events. -/
def pTrace (env : OsEnv) : List GEv :=
  (with_unshared_user_and_mount env).2.map GEv.p

/-- Child-local trace of a run, as global events. -/
def cTrace (env : OsEnv) : List GEv :=
  (systemChildEvents env).map GEv.c

/-- A valid global trace of a run: an interleaving of the two local
traces in which a successful receive of the ReadyMessage happens after
the parent sent it, and a completed parent-side accept happens after
the child sent its sender half. -/
def ValidRun (env : OsEnv) (t : List GEv) : Prop :=
  Interleave (pTrace env) (cTrace env) t ∧
  (isOkB (recv_ready env) = true →
     precedesB (GEv.p PEv.sendReadyEv) (GEv.c CEv.recvEv) t = true) ∧
  (env.acceptRes = none → GEv.p PEv.acceptEv ∈ t →
     precedesB (GEv.c CEv.sendTxEv) (GEv.p PEv.acceptEv) t = true)

/-- Oracle of a run whose child-side channel creation fails and whose
parent-side accept consequently fails as well. -/
def envC2 : OsEnv :=
  { okEnv with chanRes := some "channel creation failed",
               acceptRes := some "accept failed" }

/-- A concrete global trace of that run. -/
def traceC2 : List GEv := pTrace envC2 ++ cTrace envC2

/-- Claim C2 demonstration: a valid run exists in which the work closure
executes although the ReadyMessage send never completed, because the
child runs the work closure even after a failed rendezvous receive; the
claimed happens-before of send before work-closure-execution therefore
does not hold of the code. -/
theorem ordering_guarantee_violated :
    ValidRun envC2 traceC2 ∧
    GEv.c CEv.workEv ∈ traceC2 ∧
    GEv.p PEv.sendReadyEv ∉ traceC2 := by
  refine ⟨⟨?_, ?_, ?_⟩, ?_, ?_⟩
  · show Interleave (pTrace envC2) (cTrace envC2) (pTrace envC2 ++ cTrace envC2)
    exact interleave_append (pTrace envC2) (cTrace envC2)
  · intro hok; exact absurd hok (by decide)
  · intro ha; exact absurd ha (by decide)
  · decide
  · decide

end Mizer
